import Mathlib

/-!
Shallow embedding of `src/server.py` (the "Morning Albert" MCP server).

Conventions of the embedding:
* A feedparser entry is a loosely structured record; attribute presence is
  modelled with `Option` (`none` = attribute absent).  `getattr(e, f, d)`
  becomes `Option.getD`, `hasattr` becomes `Option.isSome`, and a direct
  attribute access `e.f` on a possibly missing attribute is fallible and
  is embedded in `Except String` (an `AttributeError`).
* Python string truthiness (`if s:`) is `s ≠ ""`; truthiness of an optional
  string is `pyTruthy`.
* `feedparser.parse` and the system UTC clock are external collaborators:
  they are passed as parameters `fetch : String → Feed` and `today : Date`.
* Python slicing `l[:n]` for `n ≥ 0` is `List.take n`, and `s[:n]` on a
  string takes the first `n` code points.
-/

/-- UTC calendar date, the result of Python's `datetime.date()`. -/
structure Date where
  year : Nat
  month : Nat
  day : Nat
deriving Repr, DecidableEq

/-- The first six components of a feedparser `published_parsed` struct_time,
exactly the tuple `entry.published_parsed[:6]` the source passes to
`datetime(...)`. -/
structure PublishedTime where
  year : Nat
  month : Nat
  day : Nat
  hour : Nat
  minute : Nat
  second : Nat
deriving Repr, DecidableEq

/-- `datetime(*entry.published_parsed[:6]).date()` - drops hour, minute and
second. -/
def PublishedTime.date (t : PublishedTime) : Date :=
  ⟨t.year, t.month, t.day⟩

/-- One element of an entry's `links` list: a dict with optional keys
`rel`, `type` and `href` (`dict.get` on a missing key returns `None`). -/
structure FeedLink where
  rel : Option String
  type : Option String
  href : Option String
deriving Repr, DecidableEq

/-- One element of an entry's `enclosures` list: a dict with an optional
`url` key. -/
structure Enclosure where
  url : Option String
deriving Repr, DecidableEq

/-- One element of an entry's `authors` list; `a.name` is a direct
attribute access in the source, so absence makes it fallible. -/
structure Author where
  name : Option String
deriving Repr, DecidableEq

/-- A raw parsed feed entry.  Every field the source ever touches is listed;
`none` means the attribute (or dict key) is absent. -/
structure RawEntry where
  title : Option String
  author : Option String
  authors : Option (List Author)
  published_parsed : Option PublishedTime
  summary : Option String
  link : Option String
  enclosures : Option (List Enclosure)
  links : Option (List FeedLink)
  transcript : Option String
deriving Repr, DecidableEq

/-- An entry with every attribute absent. -/
def emptyEntry : RawEntry :=
  ⟨none, none, none, none, none, none, none, none, none⟩

/-- The parsed feed structure returned by `feedparser.parse`. -/
structure Feed where
  entries : List RawEntry
deriving Repr, DecidableEq

/-- Python truthiness of an optional string: `None` and `""` are falsy. -/
def pyTruthy : Option String → Bool
  | none => false
  | some s => s ≠ ""

/-- Rendering of an optional string inside an f-string: `None` prints as
`"None"`. -/
def pyStrOpt : Option String → String
  | none => "None"
  | some s => s

/-- Python string slicing `s[:n]` for `n ≥ 0`: the first `n` code points. -/
def pyTake (n : Nat) (s : String) : String :=
  ⟨s.data.take n⟩

/-- Python `str.strip()` with no argument: remove leading and trailing
whitespace, embedded over the string's code points. -/
def pyStrip (s : String) : String :=
  ⟨((s.data.dropWhile Char.isWhitespace).reverse.dropWhile Char.isWhitespace).reverse⟩

/-- Zero-padded two-digit rendering used by `strftime` fields `%m %d %H %M`. -/
def pad2 (n : Nat) : String :=
  if n < 10 then "0" ++ toString n else toString n

/-- `strftime("%Y-%m-%d")` (years of the feeds are four-digit). -/
def strftimeYMD (d : Date) : String :=
  toString d.year ++ "-" ++ pad2 d.month ++ "-" ++ pad2 d.day

/-- `strftime("%Y-%m-%d %H:%M")`. -/
def strftimeYMDHM (t : PublishedTime) : String :=
  strftimeYMD t.date ++ " " ++ pad2 t.hour ++ ":" ++ pad2 t.minute

/-- Python substring membership `sub in s` (over code points). -/
def strContainsSub (sub s : String) : Bool :=
  go sub.data s.data
where
  go (p : List Char) : List Char → Bool
    | [] => p.isEmpty
    | c :: cs => p.isPrefixOf (c :: cs) || go p cs

-- Feed Config (src/server.py lines 8-22)

def NEWS_FEEDS : List (String × String) :=
  [("huggingface", "https://huggingface.co/blog/feed"),
   ("kdnuggets", "https://www.kdnuggets.com/feed"),
   ("openai", "https://openai.com/blog/rss"),
   ("towardsai", "https://towardsai.net/feed"),
   ("googleai", "blog.google/technology/ai/rss/")]

def PODCAST_FEEDS : List (String × String) :=
  [("everydayai", "https://rss.buzzsprout.com/2175779.rss")]

def PUBLICATION_FEEDS : List (String × String) :=
  [("arxiv", "https://export.arxiv.org/rss/cs.AI")]

/-- The concatenation of the entries of every feed of a registry, in
registry order: the two nested `for` loops of each tool flattened. -/
def registryEntries (reg : List (String × String)) (fetch : String → Feed) : List RawEntry :=
  ((reg.map Prod.snd).map (fun url => (fetch url).entries)).flatten

-- get_ai_podcasts (src/server.py lines 29-71)

/-- Lines 37-41: episode date string. -/
def podcastPubDate (e : RawEntry) : String :=
  match e.published_parsed with
  | some t => strftimeYMD t.date
  | none => "Unknown date"

/-- Lines 50-53: scan of `entry.links` for a transcript link, first match
wins (`rel == "transcript"` or `"transcript" in type`). -/
def transcriptFromLinks : List FeedLink → Option String
  | [] => none
  | l :: ls =>
    if l.rel == some "transcript" || strContainsSub "transcript" (l.type.getD "") then
      some ("Transcript available here: " ++ pyStrOpt l.href)
    else
      transcriptFromLinks ls

/-- Lines 45-53: the `transcript` variable after the `if/elif`:
the `transcript` attribute when present (the `elif` then skips the link
scan even when the attribute's value is empty), else the link scan when
`links` is present, else `None`. -/
def podcastTranscript (e : RawEntry) : Option String :=
  match e.transcript with
  | some t => some t
  | none =>
    match e.links with
    | some ls => transcriptFromLinks ls
    | none => none

/-- Lines 56 and 93: `getattr(entry, "summary", "").strip()`. -/
def strippedSummary (e : RawEntry) : String :=
  pyStrip (e.summary.getD "")

/-- Line 57: `text = transcript if transcript else (summary if summary else
"No summary available")` - note the truthiness checks. -/
def podcastText (e : RawEntry) : String :=
  if pyTruthy (podcastTranscript e) then
    (podcastTranscript e).getD ""
  else if strippedSummary e ≠ "" then
    strippedSummary e
  else
    "No summary available"

/-- Lines 60-66: safe link handling.  `link = getattr(entry, "link", None)`;
if falsy, index `enclosures[0]` only when the list is present and
non-empty, reading its `url` key with default `"No link available"`. -/
def podcastLink (e : RawEntry) : String :=
  if pyTruthy e.link then
    e.link.getD ""
  else
    match e.enclosures with
    | some (enc :: _) => enc.url.getD "No link available"
    | _ => "No link available"

/-- The truncate-and-ellipsis rendering `f"{text[:budget]}..."` used at
lines 68 (budget 640) and 98 (budget 220). -/
def truncatedBody (budget : Nat) (text : String) : String :=
  pyTake budget text ++ "..."

/-- Line 68: one formatted podcast episode. -/
def formatPodcastEpisode (e : RawEntry) : String :=
  "- **" ++ e.title.getD "No title" ++ "** (" ++ podcastPubDate e ++ ") → "
    ++ podcastLink e ++ "\n  🎧 " ++ truncatedBody 640 (podcastText e)

/-- `get_ai_podcasts(max_items=5)` (lines 29-71).  Each feed contributes its
first `max_items` entries (`feed.entries[:max_items]`); the placeholder is
returned when the accumulated list is empty. -/
def get_ai_podcasts (fetch : String → Feed) (max_items : Nat) : List String :=
  let episodes :=
    ((PODCAST_FEEDS.map Prod.snd).map
      (fun url => ((fetch url).entries.take max_items).map formatPodcastEpisode)).flatten
  if episodes.isEmpty then ["No new podcast episodes found."] else episodes

-- get_ai_news (src/server.py lines 76-101)

/-- The inclusion condition `not today_only or (pub_date and pub_date ==
<today>)` of lines 95 and 119: a date object is always truthy, so the
middle conjunct is a `None` check. -/
def includeEntry (today_only : Bool) (today : Date) (pub_date : Option Date) : Bool :=
  !today_only ||
    (match pub_date with
     | some d => d == today
     | none => false)

/-- Line 92: `getattr(entry, "author", "Unknown author")`. -/
def newsAuthor (e : RawEntry) : String :=
  e.author.getD "Unknown author"

/-- Lines 85-99, one iteration of the news loop: `ok none` when the entry is
filtered out, `ok (some s)` when it is formatted, `error` when the direct
accesses `entry.title` / `entry.link` of line 96 hit a missing attribute. -/
def newsItem (today_only : Bool) (today : Date) (e : RawEntry) : Except String (Option String) :=
  let pub_date : Option Date := e.published_parsed.map PublishedTime.date
  let pub_date_str : String :=
    match e.published_parsed with
    | some t => strftimeYMDHM t
    | none => "Unknown date"
  if includeEntry today_only today pub_date then
    match e.title, e.link with
    | some title, some link =>
      let formatted :=
        "- **" ++ title ++ "** by " ++ newsAuthor e ++ " (" ++ pub_date_str ++ ") → " ++ link
      let formatted :=
        if strippedSummary e ≠ "" then
          formatted ++ "\n  📝 " ++ truncatedBody 220 (strippedSummary e)
        else
          formatted
      Except.ok (some formatted)
    | none, _ => Except.error "AttributeError: title"
    | some _, none => Except.error "AttributeError: link"
  else
    Except.ok none

/-- The accumulation loop shared by `get_ai_news` and `check_new_ai_pubs`:
append each produced item in order, propagating the first raised error. -/
def collectItems (f : RawEntry → Except String (Option String)) :
    List RawEntry → Except String (List String)
  | [] => Except.ok []
  | e :: es =>
    match f e with
    | Except.error err => Except.error err
    | Except.ok none => collectItems f es
    | Except.ok (some s) =>
      match collectItems f es with
      | Except.error err => Except.error err
      | Except.ok rest => Except.ok (s :: rest)

/-- `get_ai_news(today_only=True, max_items=20)` (lines 76-101).  Line 101:
`news_items[:max_items] if news_items else ["No AI news found today."]` -
the emptiness test is on the un-sliced accumulation. -/
def get_ai_news (fetch : String → Feed) (today : Date) (today_only : Bool)
    (max_items : Nat) : Except String (List String) :=
  match collectItems (newsItem today_only today) (registryEntries NEWS_FEEDS fetch) with
  | Except.error err => Except.error err
  | Except.ok news_items =>
    Except.ok (if news_items.isEmpty then ["No AI news found today."] else news_items.take max_items)

-- check_new_ai_pubs (src/server.py lines 105-122)

/-- The list comprehension `[a.name for a in ...]`: `a.name` is a direct
attribute access, fallible when a name is absent. -/
def authorNames : List Author → Except String (List String)
  | [] => Except.ok []
  | a :: as =>
    match a.name with
    | none => Except.error "AttributeError: name"
    | some n =>
      match authorNames as with
      | Except.error err => Except.error err
      | Except.ok ns => Except.ok (n :: ns)

/-- Line 117: `", ".join([a.name for a in getattr(entry, "authors", [])])
if hasattr(entry, "authors") else "Unknown authors"`. -/
def pubAuthors (e : RawEntry) : Except String String :=
  match e.authors with
  | some as =>
    match authorNames as with
    | Except.error err => Except.error err
    | Except.ok ns => Except.ok (String.intercalate ", " ns)
  | none => Except.ok "Unknown authors"

/-- Lines 113-120, one iteration of the publications loop.  The `authors`
string is computed before the date filter, so a missing `a.name` raises
even for entries the filter would drop; `entry.title` / `entry.link` are
accessed only for included entries. -/
def pubItem (today_only : Bool) (today : Date) (e : RawEntry) : Except String (Option String) :=
  let pub_date : Option Date := e.published_parsed.map PublishedTime.date
  let pub_date_str : String :=
    match pub_date with
    | some d => strftimeYMD d
    | none => "Unknown date"
  match pubAuthors e with
  | Except.error err => Except.error err
  | Except.ok authors =>
    if includeEntry today_only today pub_date then
      match e.title, e.link with
      | some title, some link =>
        Except.ok (some ("- " ++ title ++ " by " ++ authors ++ " (" ++ pub_date_str ++ ") → " ++ link))
      | none, _ => Except.error "AttributeError: title"
      | some _, none => Except.error "AttributeError: link"
    else
      Except.ok none

/-- `check_new_ai_pubs(today_only=True, max_items=8)` (lines 105-122).  The
`max_items` parameter is declared but never used by the body; the result
is every accumulated paper, or the placeholder when none. -/
def check_new_ai_pubs (fetch : String → Feed) (today : Date) (today_only : Bool)
    (max_items : Nat) : Except String (List String) :=
  match collectItems (pubItem today_only today) (registryEntries PUBLICATION_FEEDS fetch) with
  | Except.error err => Except.error err
  | Except.ok papers =>
    Except.ok (if papers.isEmpty then ["No new AI publications today."] else papers)

-- suggest_case_studies (src/server.py lines 126-137)

/-- `suggest_case_studies(max_items=8)`: two static links, sliced. -/
def suggest_case_studies (max_items : Nat) : List String :=
  (["https://huggingface.co/blog?tag=case-studies",
    "https://www.kdnuggets.com/"]).take max_items

-- daily_digest (src/server.py lines 141-157)

/-- `daily_digest(name=None)` (lines 141-157).  Line 146 calls
`get_ai_podcasts(today_only=True)`, but `get_ai_podcasts` is declared as
`get_ai_podcasts(max_items: int = 5)` and accepts no `today_only`
parameter (the `@mcp.tool()` decorator returns the plain function), so
Python raises `TypeError` before any section is composed.  The embedding
returns that exception; only the greeting assignment of line 144 runs
before it, with no observable effect. -/
def daily_digest (fetch : String → Feed) (today : Date) (name : Option String) :
    Except String String :=
  Except.error "TypeError: get_ai_podcasts() got an unexpected keyword argument 'today_only'"

/-- The composition lines 144-157 evidently intend: the same sub-calls with
the invalid `today_only` keyword to `get_ai_podcasts` dropped, so that
call runs with its declared default `max_items = 5`; all other lines are
embedded as written (`if name` is a truthiness test, `get_ai_news` keeps
its default `max_items = 20` and `check_new_ai_pubs` its default `8`). -/
def daily_digest_intended (fetch : String → Feed) (today : Date) (name : Option String) :
    Except String String :=
  let greeting :=
    if pyTruthy name then "👋 Good morning, " ++ name.getD "" ++ "!\n"
    else "👋 Good morning!\n"
  let episodes := get_ai_podcasts fetch 5
  match get_ai_news fetch today true 20 with
  | Except.error err => Except.error err
  | Except.ok news =>
    match check_new_ai_pubs fetch today true 8 with
    | Except.error err => Except.error err
    | Except.ok pubs =>
      let case_studies := suggest_case_studies 8
      Except.ok (greeting
        ++ "\n📰 AI Podcasts' Summary (Today):\n" ++ String.intercalate "\n" episodes ++ "\n"
        ++ "\n📰 AI News (Today):\n" ++ String.intercalate "\n" news ++ "\n"
        ++ "\n📚 Publications (Today):\n" ++ String.intercalate "\n" pubs ++ "\n"
        ++ "\n💡 Case Studies:\n" ++ String.intercalate "\n" case_studies ++ "\n")

/-! ### Concrete fixtures used by counterexamples and witnesses -/

/-- A sample UTC calendar date for "today". -/
def d0 : Date := ⟨2026, 10, 12⟩

/-- A sample publish time falling on `d0` (hour and minute nonzero). -/
def t0 : PublishedTime := ⟨2026, 10, 12, 7, 30, 0⟩

/-- Every feed parses to no entries. -/
def emptyFetch : String → Feed := fun _ => ⟨[]⟩

/-- A news entry published on `d0`, with title, link and summary present. -/
def eToday : RawEntry :=
  { emptyEntry with
      title := some "X"
      link := some "http://x"
      published_parsed := some t0
      summary := some "  hello world  " }

/-- A fetch returning `eToday` for the first news feed and nothing else. -/
def newsFetch : String → Feed :=
  fun u => if u == "https://huggingface.co/blog/feed" then ⟨[eToday]⟩ else ⟨[]⟩

/-- A publication entry with title and link but no timestamp and no
`authors` list. -/
def pubE : RawEntry := { emptyEntry with title := some "P", link := some "http://p" }

/-- Every feed parses to two copies of `pubE`. -/
def pubFetch : String → Feed := fun _ => ⟨[pubE, pubE]⟩

/-- Every feed parses to a single entry with every attribute absent. -/
def allEmptyEntriesFetch : String → Feed := fun _ => ⟨[emptyEntry]⟩

/-- An entry with no scalar `author` but an `authors` list of two names. -/
def eAuthors : RawEntry :=
  { emptyEntry with
      title := some "T"
      link := some "http://l"
      authors := some [⟨some "A"⟩, ⟨some "B"⟩] }

/-- An entry with a scalar `author` but no `authors` list. -/
def eScalar : RawEntry :=
  { emptyEntry with title := some "T", link := some "http://l", author := some "X" }

/-- An entry whose `link` attribute is present but empty, with a non-empty
enclosure list. -/
def eLink : RawEntry :=
  { emptyEntry with link := some "", enclosures := some [⟨some "http://e"⟩] }

/-- An entry with a plain non-empty link. -/
def eLinkPlain : RawEntry := { emptyEntry with link := some "http://x" }

/-- An entry whose `transcript` attribute is present but empty, with a
non-empty summary. -/
def eT : RawEntry := { emptyEntry with transcript := some "", summary := some "hello" }

/-- An entry with a non-empty `transcript` attribute. -/
def eTr : RawEntry := { emptyEntry with transcript := some "the transcript" }

/-- The list a fallible tool call produced, `[]` on an exception; used to
state length bounds uniformly over both outcomes. -/
def okList (x : Except String (List String)) : List String :=
  match x with
  | Except.ok l => l
  | Except.error _ => []

/-! ### Helper lemmas -/

theorem truncatedBody_length_le (budget : Nat) (s : String) :
    (truncatedBody budget s).length ≤ budget + "...".length := by
  have h : (pyTake budget s).length ≤ budget := by
    show (s.data.take budget).length ≤ budget
    simp [List.length_take]
  calc (truncatedBody budget s).length
      = (pyTake budget s).length + "...".length := String.length_append _ _
    _ ≤ budget + "...".length := by omega

theorem truncatedBody_endsWith (budget : Nat) (s : String) :
    ∃ t, truncatedBody budget s = t ++ "..." :=
  ⟨pyTake budget s, rfl⟩

theorem get_ai_podcasts_length_le (fetch : String → Feed) (m : Nat) :
    (get_ai_podcasts fetch m).length ≤ max 1 m := by
  simp only [get_ai_podcasts]
  split
  · simp
  · simp only [PODCAST_FEEDS, List.map_cons, List.map_nil, List.flatten_cons, List.flatten_nil,
      List.append_nil, List.length_map, List.length_take]
    omega

theorem okList_get_ai_news_length_le (fetch : String → Feed) (today : Date)
    (today_only : Bool) (m : Nat) :
    (okList (get_ai_news fetch today today_only m)).length ≤ max 1 m := by
  unfold get_ai_news
  cases hc : collectItems (newsItem today_only today) (registryEntries NEWS_FEEDS fetch) with
  | error err => simp [okList]
  | ok l =>
    simp only [okList]
    split
    · simp
    · simp only [List.length_take]
      omega

/-! ### Claims -/

/-- Claim C7: for every input body text, the displayed body text after
truncation has length at most the budget (640 for podcast text, 220 for
news summaries) plus the length of the ellipsis marker, and always ends
with the ellipsis marker regardless of the input's length.
`truncatedBody` is the rendering `f"{text[:budget]}..."` used at lines 68
and 98 of `src/server.py`, applied to `podcastText e` and to
`strippedSummary e` respectively. -/
theorem truncation_spec (s : String) :
    (truncatedBody 640 s).length ≤ 640 + "...".length
    ∧ (∃ t, truncatedBody 640 s = t ++ "...")
    ∧ (truncatedBody 220 s).length ≤ 220 + "...".length
    ∧ (∃ t, truncatedBody 220 s = t ++ "...") :=
  ⟨truncatedBody_length_le 640 s, truncatedBody_endsWith 640 s,
   truncatedBody_length_le 220 s, truncatedBody_endsWith 220 s⟩

/-- Claim C5: the date filter of lines 95 and 119.  With `today_only =
false` every entry is included; with `today_only = true` an entry without
a `published_parsed` timestamp is excluded, and an entry with one is
included exactly when the calendar-date part of the timestamp (hour,
minute, second dropped by `PublishedTime.date`) equals the current UTC
date, which the embedding passes as the parameter `today`. -/
theorem date_filter_spec (today : Date) (e : RawEntry) :
    includeEntry false today (e.published_parsed.map PublishedTime.date) = true
    ∧ (e.published_parsed = none →
        includeEntry true today (e.published_parsed.map PublishedTime.date) = false)
    ∧ (∀ t, e.published_parsed = some t →
        (includeEntry true today (e.published_parsed.map PublishedTime.date) = true
          ↔ t.date = today)) := by
  refine ⟨by simp [includeEntry], fun h => by simp [h, includeEntry], fun t ht => ?_⟩
  simp [ht, includeEntry]

/-- Witness for C5 at the concrete entry `eToday`: its timestamp `t0` has
nonzero hour and minute, yet inclusion is equivalent to plain date
equality. -/
theorem date_filter_spec_witness :
    includeEntry true d0 (eToday.published_parsed.map PublishedTime.date) = true
      ↔ t0.date = d0 :=
  (date_filter_spec d0 eToday).2.2 t0 rfl

/-- Claim C2 (amended): `get_ai_podcasts` and `get_ai_news` return at most
`max 1 max_items` items - at most `max_items` from slicing, except that an
empty accumulation yields the one-element placeholder list, so the claimed
bound `≤ max_items` fails at `max_items = 0`; `check_new_ai_pubs` ignores
its `max_items` parameter entirely (its result is the same as with
`max_items = 0`), so its length is not bounded by `max_items` at all. -/
theorem max_items_amended (fetch : String → Feed) (today : Date) (today_only : Bool) (m : Nat) :
    (get_ai_podcasts fetch m).length ≤ max 1 m
    ∧ (okList (get_ai_news fetch today today_only m)).length ≤ max 1 m
    ∧ check_new_ai_pubs fetch today today_only m = check_new_ai_pubs fetch today today_only 0 :=
  ⟨get_ai_podcasts_length_le fetch m, okList_get_ai_news_length_le fetch today today_only m, rfl⟩

/-- Counterexample to C2 as stated: with two matching publication entries
and `max_items = 1`, `check_new_ai_pubs` returns two items; and with no
matching news entries and `max_items = 0`, `get_ai_news` returns the
one-element placeholder list.  Both violate "output length ≤ max_items". -/
theorem max_items_counterexample :
    check_new_ai_pubs pubFetch d0 false 1
      = Except.ok ["- P by Unknown authors (Unknown date) → http://p",
                   "- P by Unknown authors (Unknown date) → http://p"]
    ∧ ¬ ((okList (check_new_ai_pubs pubFetch d0 false 1)).length ≤ 1)
    ∧ get_ai_news emptyFetch d0 true 0 = Except.ok ["No AI news found today."]
    ∧ ¬ ((okList (get_ai_news emptyFetch d0 true 0)).length ≤ 0) :=
  ⟨rfl, by decide, rfl, by decide⟩

/-- Claim C10: when the accumulated news list is non-empty, `max_items = 0`
yields the empty list at the interface, not the placeholder: line 101
tests emptiness of the un-sliced accumulation and slices afterwards. -/
theorem news_zero_cap (fetch : String → Feed) (today : Date) (today_only : Bool)
    (items : List String)
    (h1 : collectItems (newsItem today_only today) (registryEntries NEWS_FEEDS fetch)
            = Except.ok items)
    (h2 : items ≠ []) :
    get_ai_news fetch today today_only 0 = Except.ok [] := by
  unfold get_ai_news
  rw [h1]
  cases items with
  | nil => exact absurd rfl h2
  | cons a as => simp

/-- Witness for C10: `newsFetch` yields exactly one entry matching today's
date, and `get_ai_news` with `max_items = 0` returns the empty list. -/
theorem news_zero_cap_witness : get_ai_news newsFetch d0 true 0 = Except.ok [] :=
  news_zero_cap newsFetch d0 true _ rfl (by decide)

theorem collectItems_isOk (f : RawEntry → Except String (Option String)) (l : List RawEntry)
    (h : ∀ e ∈ l, ∃ o, f e = Except.ok o) : ∃ items, collectItems f l = Except.ok items := by
  induction l with
  | nil => exact ⟨[], rfl⟩
  | cons e es ih =>
    obtain ⟨o, ho⟩ := h e (List.mem_cons_self e es)
    obtain ⟨items, hi⟩ := ih (fun x hx => h x (List.mem_cons_of_mem e hx))
    cases o with
    | none => exact ⟨items, by simp [collectItems, ho, hi]⟩
    | some s => exact ⟨s :: items, by simp [collectItems, ho, hi]⟩

theorem registryEntries_forall {P : RawEntry → Prop} (reg : List (String × String))
    (fetch : String → Feed) (h : ∀ url, ∀ e ∈ (fetch url).entries, P e) :
    ∀ e ∈ registryEntries reg fetch, P e := by
  induction reg with
  | nil => intro e he; simp [registryEntries] at he
  | cons r rs ih =>
    intro e he
    simp only [registryEntries, List.map_cons, List.flatten_cons, List.mem_append] at he
    cases he with
    | inl h1 => exact h r.2 e h1
    | inr h2 => exact ih e (by simpa [registryEntries] using h2)

theorem newsItem_isOk (today_only : Bool) (today : Date) (e : RawEntry)
    (ht : e.title.isSome) (hl : e.link.isSome) :
    ∃ o, newsItem today_only today e = Except.ok o := by
  obtain ⟨t, ht'⟩ := Option.isSome_iff_exists.mp ht
  obtain ⟨l, hl'⟩ := Option.isSome_iff_exists.mp hl
  simp only [newsItem, ht', hl']
  split
  · exact ⟨_, rfl⟩
  · exact ⟨none, rfl⟩

theorem authorNames_isOk (as : List Author) (h : ∀ a ∈ as, a.name.isSome) :
    ∃ ns, authorNames as = Except.ok ns := by
  induction as with
  | nil => exact ⟨[], rfl⟩
  | cons a as ih =>
    obtain ⟨n, hn⟩ := Option.isSome_iff_exists.mp (h a (List.mem_cons_self a as))
    obtain ⟨ns, hns⟩ := ih (fun x hx => h x (List.mem_cons_of_mem a hx))
    exact ⟨n :: ns, by simp [authorNames, hn, hns]⟩

theorem pubItem_isOk (today_only : Bool) (today : Date) (e : RawEntry)
    (ht : e.title.isSome) (hl : e.link.isSome)
    (ha : ∀ a ∈ e.authors.getD [], a.name.isSome) :
    ∃ o, pubItem today_only today e = Except.ok o := by
  obtain ⟨t, ht'⟩ := Option.isSome_iff_exists.mp ht
  obtain ⟨l, hl'⟩ := Option.isSome_iff_exists.mp hl
  have hpa : ∃ s, pubAuthors e = Except.ok s := by
    cases has : e.authors with
    | none => exact ⟨"Unknown authors", by simp [pubAuthors, has]⟩
    | some as =>
      obtain ⟨ns, hns⟩ := authorNames_isOk as (by rw [has] at ha; simpa using ha)
      exact ⟨String.intercalate ", " ns, by simp [pubAuthors, has, hns]⟩
  obtain ⟨s, hs⟩ := hpa
  simp only [pubItem, ht', hl', hs]
  split
  · exact ⟨_, rfl⟩
  · exact ⟨none, rfl⟩

theorem transcriptFromLinks_ne_empty (ls : List FeedLink) (p : String)
    (h : transcriptFromLinks ls = some p) : p ≠ "" := by
  induction ls with
  | nil => simp [transcriptFromLinks] at h
  | cons l ls ih =>
    rw [transcriptFromLinks] at h
    split at h
    · have hp : p = "Transcript available here: " ++ pyStrOpt l.href := by
        injection h with h'
        exact h'.symm
      subst hp
      intro hcontra
      have hlen := congrArg String.length hcontra
      rw [String.length_append] at hlen
      have h27 : ("Transcript available here: " : String).length = 27 := rfl
      have h0 : ("" : String).length = 0 := rfl
      omega
    · exact ih h

/-- Claim C3 counterexample: normalization is not total.  On an entry with
every attribute absent and `today_only = false`, the direct accesses
`entry.title` of lines 96 and 120 raise `AttributeError`, so both
`get_ai_news` and `check_new_ai_pubs` fail rather than default. -/
theorem normalization_total_counterexample :
    get_ai_news allEmptyEntriesFetch d0 false 20 = Except.error "AttributeError: title"
    ∧ check_new_ai_pubs allEmptyEntriesFetch d0 false 8 = Except.error "AttributeError: title" :=
  ⟨rfl, rfl⟩

/-- Claim C3 (amended): absence of author, summary, timestamp, link
relations or enclosures degrades to a default, and podcast normalization
is total (witnessed by the fully defaulted rendering of the empty entry);
but in `get_ai_news` and `check_new_ai_pubs` a missing `title` or `link`
on an included entry (or a missing `name` on a listed publication author)
raises `AttributeError` instead of defaulting - both tools succeed
whenever those three fields are present. -/
theorem normalization_total_amended (fetch : String → Feed) (today : Date)
    (today_only : Bool) (m : Nat)
    (h : ∀ url, ∀ e ∈ (fetch url).entries,
        e.title.isSome ∧ e.link.isSome ∧ ∀ a ∈ e.authors.getD [], a.name.isSome) :
    (∃ l, get_ai_news fetch today today_only m = Except.ok l)
    ∧ (∃ l, check_new_ai_pubs fetch today today_only m = Except.ok l)
    ∧ formatPodcastEpisode emptyEntry
        = "- **No title** (Unknown date) → No link available\n  🎧 No summary available..." := by
  refine ⟨?_, ?_, rfl⟩
  · have hall : ∀ e ∈ registryEntries NEWS_FEEDS fetch,
        ∃ o, newsItem today_only today e = Except.ok o :=
      registryEntries_forall NEWS_FEEDS fetch
        (fun url e he => newsItem_isOk today_only today e (h url e he).1 (h url e he).2.1)
    obtain ⟨items, hi⟩ := collectItems_isOk _ _ hall
    unfold get_ai_news
    rw [hi]
    exact ⟨_, rfl⟩
  · have hall : ∀ e ∈ registryEntries PUBLICATION_FEEDS fetch,
        ∃ o, pubItem today_only today e = Except.ok o :=
      registryEntries_forall PUBLICATION_FEEDS fetch
        (fun url e he =>
          pubItem_isOk today_only today e (h url e he).1 (h url e he).2.1 (h url e he).2.2)
    obtain ⟨items, hi⟩ := collectItems_isOk _ _ hall
    unfold check_new_ai_pubs
    rw [hi]
    exact ⟨_, rfl⟩

/-- Witness for the amended C3: a fetch whose entries all carry title and
link (and no author list) makes both tools succeed. -/
theorem normalization_total_amended_witness :
    (∃ l, get_ai_news pubFetch d0 true 5 = Except.ok l)
    ∧ (∃ l, check_new_ai_pubs pubFetch d0 true 5 = Except.ok l)
    ∧ formatPodcastEpisode emptyEntry
        = "- **No title** (Unknown date) → No link available\n  🎧 No summary available..." :=
  normalization_total_amended pubFetch d0 true 5 (fun url => by simp only [pubFetch]; decide)

/-- Claim C6 counterexample: the author field is not resolved by the
first-match-wins chain.  On an entry with no scalar `author` but an
`authors` list `[A, B]`, `get_ai_news` renders `"Unknown author"` instead
of the joined names; on an entry with scalar `author = "X"` and no list,
`check_new_ai_pubs` renders `"Unknown authors"` instead of `"X"`. -/
theorem author_chain_counterexample :
    newsAuthor eAuthors = "Unknown author"
    ∧ eAuthors.authors = some [⟨some "A"⟩, ⟨some "B"⟩]
    ∧ "Unknown author" ≠ "A, B"
    ∧ eScalar.author = some "X"
    ∧ pubAuthors eScalar = Except.ok "Unknown authors"
    ∧ "Unknown authors" ≠ "X" :=
  ⟨rfl, rfl, by decide, rfl, rfl, by decide⟩

/-- Claim C6 (amended): the two tools implement two disjoint halves of the
chain.  `get_ai_news` uses only the scalar `author`, defaulting to
`"Unknown author"`, and never consults the `authors` list;
`check_new_ai_pubs` uses only the `authors` list, joining the names with
`", "` when the list attribute is present (an empty present list joins to
`""`), defaulting to `"Unknown authors"` (plural) when absent, and never
consults the scalar `author`. -/
theorem author_chain_amended (e : RawEntry) :
    newsAuthor e = e.author.getD "Unknown author"
    ∧ (∀ as, newsAuthor { e with authors := as } = newsAuthor e)
    ∧ (∀ a, pubAuthors { e with author := a } = pubAuthors e)
    ∧ (∀ as ns, e.authors = some as → authorNames as = Except.ok ns →
        pubAuthors e = Except.ok (String.intercalate ", " ns))
    ∧ (e.authors = none → pubAuthors e = Except.ok "Unknown authors")
    ∧ (e.authors = some [] → pubAuthors e = Except.ok "") := by
  refine ⟨rfl, fun as => rfl, fun a => rfl, fun as ns has hns => ?_, fun h => ?_, fun h => ?_⟩
  · simp [pubAuthors, has, hns]
  · simp [pubAuthors, h]
  · simp [pubAuthors, h, authorNames]
    rfl

/-- Witness for the amended C6 at `eAuthors`: the publication tool joins
the two listed names. -/
theorem author_chain_amended_witness :
    pubAuthors eAuthors = Except.ok (String.intercalate ", " ["A", "B"]) :=
  (author_chain_amended eAuthors).2.2.2.1 [⟨some "A"⟩, ⟨some "B"⟩] ["A", "B"] rfl rfl

/-- Claim C8 counterexample: a `link` attribute that is present but empty
is skipped (Python truthiness), so the first enclosure URL is used even
though the direct link field is present. -/
theorem podcast_link_counterexample :
    eLink.link = some "" ∧ podcastLink eLink = "http://e" ∧ "http://e" ≠ "" :=
  ⟨rfl, rfl, by decide⟩

/-- Claim C8 (amended): the link resolves to the direct `link` field if
present *and non-empty*; else, when the enclosure list exists and is
non-empty, to the first enclosure's `url` (defaulting to
`"No link available"` when the first enclosure has no `url` key); else to
`"No link available"`.  An enclosure list that is absent or empty is never
indexed - `podcastLink` is a total function. -/
theorem podcast_link_amended (e : RawEntry) :
    (∀ l, e.link = some l → l ≠ "" → podcastLink e = l)
    ∧ (pyTruthy e.link = false →
        (∀ enc rest, e.enclosures = some (enc :: rest) →
          podcastLink e = enc.url.getD "No link available")
        ∧ (e.enclosures = some [] → podcastLink e = "No link available")
        ∧ (e.enclosures = none → podcastLink e = "No link available")) := by
  constructor
  · intro l hl hne
    simp [podcastLink, pyTruthy, hl, hne]
  · intro hf
    refine ⟨fun enc rest he => ?_, fun he => ?_, fun he => ?_⟩ <;>
      simp [podcastLink, hf, he]

/-- Witness for the amended C8: a plain non-empty link resolves to itself. -/
theorem podcast_link_amended_witness : podcastLink eLinkPlain = "http://x" :=
  (podcast_link_amended eLinkPlain).1 "http://x" rfl (by decide)

/-- Claim C9 counterexample: a `transcript` attribute that is present but
empty is skipped by the truthiness test of line 57 (and the `elif` has
already skipped the link scan), so the body falls through to the summary
instead of the present transcript field. -/
theorem podcast_body_counterexample :
    eT.transcript = some "" ∧ podcastText eT = "hello" ∧ "hello" ≠ "" :=
  ⟨rfl, rfl, by decide⟩

/-- Claim C9 (amended): the body resolves to the `transcript` attribute if
present *and non-empty*; when the attribute is present but empty, the
link scan is skipped and the body falls through to the stripped summary
(or the placeholder); when the attribute is absent, the first link tagged
as a transcript (`rel == "transcript"` or `"transcript"` a substring of
the MIME type) yields the pointer string; else the stripped summary if
non-empty; else `"No summary available"`. -/
theorem podcast_body_amended (e : RawEntry) :
    (∀ t, e.transcript = some t → t ≠ "" → podcastText e = t)
    ∧ (e.transcript = some "" →
        podcastText e = if strippedSummary e ≠ "" then strippedSummary e
                        else "No summary available")
    ∧ (e.transcript = none → ∀ ls p, e.links = some ls →
        transcriptFromLinks ls = some p → podcastText e = p)
    ∧ (e.transcript = none → podcastTranscript e = none →
        podcastText e = if strippedSummary e ≠ "" then strippedSummary e
                        else "No summary available") := by
  refine ⟨fun t ht hne => ?_, fun ht => ?_, fun ht ls p hls hp => ?_, fun ht hpt => ?_⟩
  · simp [podcastText, podcastTranscript, pyTruthy, ht, hne]
  · simp [podcastText, podcastTranscript, pyTruthy, ht]
  · have hpt : podcastTranscript e = some p := by simp [podcastTranscript, ht, hls, hp]
    have hne := transcriptFromLinks_ne_empty ls p hp
    simp [podcastText, hpt, pyTruthy, hne]
  · simp [podcastText, hpt, pyTruthy]

/-- Witness for the amended C9: a non-empty transcript attribute is used
verbatim as the body. -/
theorem podcast_body_amended_witness : podcastText eTr = "the transcript" :=
  (podcast_body_amended eTr).1 "the transcript" rfl (by decide)

/-- Claim C1 (code bug): `daily_digest` never returns a composed string -
every call raises `TypeError`, because line 146 passes the keyword
argument `today_only` to `get_ai_podcasts`, whose signature
`get_ai_podcasts(max_items: int = 5)` has no such parameter. -/
theorem daily_digest_always_raises (fetch : String → Feed) (today : Date)
    (name : Option String) :
    daily_digest fetch today name
      = Except.error
          "TypeError: get_ai_podcasts() got an unexpected keyword argument 'today_only'" :=
  rfl

/-- Claim C4 counterexample: at the claim's own input,
`daily_digest(name="Ada")` raises `TypeError` instead of returning any
string, so no returned string contains the greeting. -/
theorem daily_digest_ada_counterexample :
    daily_digest emptyFetch d0 (some "Ada")
      = Except.error
          "TypeError: get_ai_podcasts() got an unexpected keyword argument 'today_only'" :=
  rfl

set_option maxRecDepth 4096 in
/-- Claim C4 (amended): with the invalid `today_only` keyword of line 146
dropped, `daily_digest(name="Ada")` over all-empty categories returns the
greeting `"👋 Good morning, Ada!"` followed by four section headers, where
the podcast, news and publication sections each hold exactly one
placeholder line, and the Case Studies section holds the two static links
(never a placeholder). -/
theorem daily_digest_ada_amended :
    daily_digest_intended emptyFetch d0 (some "Ada")
      = Except.ok ("👋 Good morning, Ada!\n\n📰 AI Podcasts' Summary (Today):\nNo new podcast episodes found.\n\n📰 AI News (Today):\nNo AI news found today.\n\n📚 Publications (Today):\nNo new AI publications today.\n\n💡 Case Studies:\nhttps://huggingface.co/blog?tag=case-studies\nhttps://www.kdnuggets.com/\n") :=
  rfl
